import Mathlib

/-!
Shallow embedding of `providers/dns/sakuracloud/sakuracloud.go`, the SakuraCloud
DNS-01 challenge provider of this repository, together with theorems checking the
specification's claims against it.

Modelling conventions:
* Go `time.Duration` is an `Int` counting nanoseconds.
* The process environment is a map `String → Option String` (`none` = unset).
* The package-global variables of the `iaas` / `defaults` SDK packages are a
  `Globals` record threaded explicitly through the functions that mutate them.
* The external DNS API is an oracle `APICall → Option String` (`none` = success,
  `some msg` = the error returned by the API); `Present` and `CleanUp` also
  return the list of API calls they issued, so that call counts and call
  arguments can be stated.
* Go errors are `Option String` / `Except String` values holding the message;
  `fmt.Errorf("sakuracloud: %w", err)` becomes prefixing the message string.
-/

namespace LegoACME

/-- Go `time.Duration`: a count of nanoseconds. -/
abbrev Duration := Int

namespace time

/-- `time.Second` in nanoseconds. -/
def Second : Duration := 1000000000

/-- `time.Hour` in nanoseconds. -/
def Hour : Duration := 3600 * Second

end time

/-- The process environment: `none` means the variable is unset. -/
def Env : Type := String → Option String

namespace dns01

/-- Modelled from the spec: the default TTL owned by the external `dns01`
package (the spec names the constant but not its value; the value is
irrelevant to every claim, which references the constant symbolically). -/
def DefaultTTL : Int := 120

/-- Modelled from the spec: default propagation timeout of the `dns01` package. -/
def DefaultPropagationTimeout : Duration := 60 * time.Second

/-- Modelled from the spec: default polling interval of the `dns01` package. -/
def DefaultPollingInterval : Duration := 2 * time.Second

/-- The record name/value pair computed by `dns01.GetChallengeInfo`. -/
structure ChallengeInfo where
  EffectiveFQDN : String
  Value : String
deriving DecidableEq, Repr

/-- Modelled from the spec: `dns01.GetChallengeInfo` is repository code outside
`src/`. Per the spec's glossary the DNS-01 challenge publishes "a specific TXT
record under `_acme-challenge.<domain>`" whose value is derived from the key
authorization; the digesting of `keyAuth` is kept abstract (identity stands in
for it), since every claim depends only on the function being a deterministic
function of `domain` and `keyAuth`. -/
def GetChallengeInfo (domain keyAuth : String) : ChallengeInfo :=
  { EffectiveFQDN := "_acme-challenge." ++ domain ++ "."
    Value := keyAuth }

end dns01

namespace env

/-- Modelled from the spec: `env.Get` (repository code outside `src/`) reads the
named environment variables and fails when one of them is missing. Specialised
to the two keys the provider requests. -/
def Get2 (e : Env) (k1 k2 : String) : Except String (String × String) :=
  match e k1, e k2 with
  | some v1, some v2 => Except.ok (v1, v2)
  | _, _ => Except.error ("some credentials information are missing: " ++ k1 ++ "," ++ k2)

/-- Modelled from the spec: `env.GetOrDefaultInt` (repository code outside
`src/`) returns the integer value of the variable when set and parseable,
and the fallback otherwise. -/
def GetOrDefaultInt (e : Env) (k : String) (d : Int) : Int :=
  match e k with
  | some v =>
    match v.toInt? with
    | some n => n
    | none => d
  | none => d

/-- Modelled from the spec: `env.GetOrDefaultSecond` (repository code outside
`src/`) returns the variable's value as a duration in seconds when set and
parseable, and the fallback duration otherwise. -/
def GetOrDefaultSecond (e : Env) (k : String) (d : Duration) : Duration :=
  match e k with
  | some v =>
    match v.toInt? with
    | some n => n * time.Second
    | none => d
  | none => d

end env

/-- The only field of Go's `http.Client` this module reads or writes. -/
structure HTTPClient where
  Timeout : Duration
deriving DecidableEq, Repr

/-- `Config` from sakuracloud.go. `HTTPClient` is a pointer in Go, hence `Option`. -/
structure Config where
  Token : String
  Secret : String
  PropagationTimeout : Duration
  PollingInterval : Duration
  TTL : Int
  HTTPClient : Option HTTPClient
deriving DecidableEq, Repr

def envNamespace : String := "SAKURACLOUD_"

def EnvAccessToken : String := envNamespace ++ "ACCESS_TOKEN"

def EnvAccessTokenSecret : String := envNamespace ++ "ACCESS_TOKEN_SECRET"

def EnvTTL : String := envNamespace ++ "TTL"

def EnvPropagationTimeout : String := envNamespace ++ "PROPAGATION_TIMEOUT"

def EnvPollingInterval : String := envNamespace ++ "POLLING_INTERVAL"

def EnvHTTPTimeout : String := envNamespace ++ "HTTP_TIMEOUT"

/-- `NewDefaultConfig` from sakuracloud.go. -/
def NewDefaultConfig (e : Env) : Config :=
  { Token := ""
    Secret := ""
    TTL := env.GetOrDefaultInt e EnvTTL dns01.DefaultTTL
    PropagationTimeout := env.GetOrDefaultSecond e EnvPropagationTimeout dns01.DefaultPropagationTimeout
    PollingInterval := env.GetOrDefaultSecond e EnvPollingInterval dns01.DefaultPollingInterval
    HTTPClient := some { Timeout := env.GetOrDefaultSecond e EnvHTTPTimeout (10 * time.Second) } }

namespace iaas

/-- `iaas.DefaultUserAgent`, a constant of the external SDK; its concrete text
is irrelevant to every claim, which references it symbolically. -/
def DefaultUserAgent : String := "iaas-api-go"

end iaas

namespace useragent

/-- Modelled from the spec: `useragent.Get` is repository code outside `src/`;
a constant user-agent string whose text no claim depends on. -/
def Get : String := "lego-useragent"

end useragent

/-- The package-global variables of the `iaas` and `defaults` SDK packages that
`newCaller` mutates. -/
structure Globals where
  DefaultStatePollingTimeout : Duration
  APIDefaultZone : String
  SakuraCloudZones : List String
  SakuraCloudAPIRoot : String
deriving DecidableEq, Repr

/-- `client.Options` fields this module sets or reads. -/
structure ClientOptions where
  AccessToken : String
  AccessTokenSecret : String
  HttpClient : Option HTTPClient
  UserAgent : String
deriving DecidableEq, Repr

/-- `api.CallerOptions` fields this module sets or reads; `Options` is the
embedded `client.Options`, so Go's `opts.UserAgent` is `opts.Options.UserAgent`. -/
structure CallerOptions where
  Options : ClientOptions
  DefaultZone : String
  Zones : List String
  APIRootURL : String
deriving DecidableEq, Repr

namespace strings

/-- Go `strings.TrimRight(s, "/")`: removes every trailing `/` character. -/
def TrimRightSlashes (s : String) : String :=
  String.mk ((s.toList.reverse.dropWhile (fun c => c = '/')).reverse)

/-- Go `strings.HasSuffix(s, "/")`. -/
def HasSuffixSlash (s : String) : Bool :=
  match s.toList.reverse with
  | [] => false
  | c :: _ => c = '/'

end strings

/-- `newCaller` from sakuracloud.go. The Go function mutates `*opts` (the
user-agent default) and four package globals and returns an `iaas.APICaller`
built from `opts.Options`; the embedding returns the mutated options (whose
`Options` field is the state the caller was built from) together with the
mutated globals. -/
def newCaller (opts : CallerOptions) (g : Globals) : CallerOptions × Globals :=
  let opts :=
    if opts.Options.UserAgent = "" then
      { opts with Options := { opts.Options with UserAgent := iaas.DefaultUserAgent } }
    else opts
  let g := { g with DefaultStatePollingTimeout := 72 * time.Hour }
  let g := if opts.DefaultZone = "" then g else { g with APIDefaultZone := opts.DefaultZone }
  let g := if opts.Zones.length > 0 then { g with SakuraCloudZones := opts.Zones } else g
  if opts.APIRootURL = "" then (opts, g)
  else
    let root :=
      if strings.HasSuffixSlash opts.APIRootURL then strings.TrimRightSlashes opts.APIRootURL
      else opts.APIRootURL
    ({ opts with APIRootURL := root }, { g with SakuraCloudAPIRoot := root })

/-- `newCallerWithOptions` from sakuracloud.go: delegates to `newCaller`. -/
def newCallerWithOptions (opts : CallerOptions) (g : Globals) : CallerOptions × Globals :=
  newCaller opts g

/-- `DNSProvider` from sakuracloud.go. `client` stands for the `iaas.DNSAPI`
built by `iaas.NewDNSOp` from the caller: it is identified with the merged
caller options the caller was constructed from. -/
structure DNSProvider where
  config : Config
  client : CallerOptions
deriving DecidableEq, Repr

/-- `NewDNSProviderConfig` from sakuracloud.go. `api.DefaultOption` and
`api.MergeOptions` belong to the external SDK and are taken as parameters:
`defaultOption` is the (possibly failing) result of `api.DefaultOption()` and
`mergeOptions` is `api.MergeOptions`. The Go `*Config` argument is `Option
Config` (`none` = nil pointer), and the globals are threaded explicitly. -/
def NewDNSProviderConfig (defaultOption : Except String CallerOptions)
    (mergeOptions : CallerOptions → CallerOptions → CallerOptions)
    (config : Option Config) (g : Globals) : Except String DNSProvider × Globals :=
  match config with
  | none => (Except.error "sakuracloud: the configuration of the DNS provider is nil", g)
  | some cfg =>
    if cfg.Token = "" then (Except.error "sakuracloud: AccessToken is missing", g)
    else if cfg.Secret = "" then (Except.error "sakuracloud: AccessSecret is missing", g)
    else
      match defaultOption with
      | Except.error err => (Except.error ("sakuracloud: " ++ err), g)
      | Except.ok defOpt =>
        let options : CallerOptions :=
          { Options :=
              { AccessToken := cfg.Token
                AccessTokenSecret := cfg.Secret
                HttpClient := cfg.HTTPClient
                UserAgent := iaas.DefaultUserAgent ++ " " ++ useragent.Get }
            DefaultZone := ""
            Zones := []
            APIRootURL := "" }
        let r := newCallerWithOptions (mergeOptions defOpt options) g
        (Except.ok { config := cfg, client := r.1 }, r.2)

/-- `NewDNSProvider` from sakuracloud.go: reads the two credential variables
from the environment, fills a default config with them and delegates to
`NewDNSProviderConfig`. -/
def NewDNSProvider (defaultOption : Except String CallerOptions)
    (mergeOptions : CallerOptions → CallerOptions → CallerOptions)
    (e : Env) (g : Globals) : Except String DNSProvider × Globals :=
  match env.Get2 e EnvAccessToken EnvAccessTokenSecret with
  | Except.error err => (Except.error ("sakuracloud: " ++ err), g)
  | Except.ok vals =>
    let config := { NewDefaultConfig e with Token := vals.1, Secret := vals.2 }
    NewDNSProviderConfig defaultOption mergeOptions (some config) g

/-- One invocation of the external SakuraCloud DNS API. -/
inductive APICall where
  | addTXT (fqdn value : String) (ttl : Int)
  | cleanupTXT (fqdn value : String)
deriving DecidableEq, Repr

/-- The external API's behaviour: `none` = the call succeeded, `some msg` = the
call failed with that error message. -/
def APIOracle : Type := APICall → Option String

/-- Recognises a create-TXT call. -/
def APICall.isAddTXT : APICall → Bool
  | .addTXT _ _ _ => true
  | .cleanupTXT _ _ => false

/-- Recognises a delete-TXT call. -/
def APICall.isCleanupTXT : APICall → Bool
  | .addTXT _ _ _ => false
  | .cleanupTXT _ _ => true

/-- `(*DNSProvider).addTXTRecord`, defined in the provider's client code (a
file of this module absent from `src/`): per the spec it issues a single
create-TXT call against the external API. The embedding records the call and
returns the API's answer. -/
def addTXTRecord (api : APIOracle) (fqdn value : String) (ttl : Int) :
    Option String × List APICall :=
  (api (APICall.addTXT fqdn value ttl), [APICall.addTXT fqdn value ttl])

/-- `(*DNSProvider).cleanupTXTRecord`, defined in the provider's client code (a
file of this module absent from `src/`): per the spec it issues a single
delete-TXT call against the external API. -/
def cleanupTXTRecord (api : APIOracle) (fqdn value : String) :
    Option String × List APICall :=
  (api (APICall.cleanupTXT fqdn value), [APICall.cleanupTXT fqdn value])

/-- `Present` from sakuracloud.go: resolves the record via
`dns01.GetChallengeInfo`, issues the create call, and wraps any error with the
"sakuracloud: " message. Returns the error (if any) and the calls issued. -/
def Present (api : APIOracle) (d : DNSProvider) (domain token keyAuth : String) :
    Option String × List APICall :=
  let info := dns01.GetChallengeInfo domain keyAuth
  let r := addTXTRecord api info.EffectiveFQDN info.Value d.config.TTL
  match r.1 with
  | some err => (some ("sakuracloud: " ++ err), r.2)
  | none => (none, r.2)

/-- `CleanUp` from sakuracloud.go: resolves the record via
`dns01.GetChallengeInfo`, issues the delete call, and wraps any error with the
"sakuracloud: " message. -/
def CleanUp (api : APIOracle) (d : DNSProvider) (domain token keyAuth : String) :
    Option String × List APICall :=
  let info := dns01.GetChallengeInfo domain keyAuth
  let r := cleanupTXTRecord api info.EffectiveFQDN info.Value
  match r.1 with
  | some err => (some ("sakuracloud: " ++ err), r.2)
  | none => (none, r.2)

/-- `Timeout` from sakuracloud.go. -/
def Timeout (d : DNSProvider) : Duration × Duration :=
  (d.config.PropagationTimeout, d.config.PollingInterval)

/-- A concrete stand-in for `api.MergeOptions` (field-wise override by the
second argument), used to instantiate theorems at concrete inputs. -/
def mergeOverride (a b : CallerOptions) : CallerOptions := b

/-- A concrete sample configuration with non-empty credentials. -/
def sampleConfig : Config :=
  { Token := "tok"
    Secret := "sec"
    PropagationTimeout := 60 * time.Second
    PollingInterval := 2 * time.Second
    TTL := 120
    HTTPClient := some { Timeout := 10 * time.Second } }

/-- A concrete sample of the SDK package globals. -/
def sampleGlobals : Globals :=
  { DefaultStatePollingTimeout := 0
    APIDefaultZone := ""
    SakuraCloudZones := []
    SakuraCloudAPIRoot := "" }

/-- A concrete sample of caller options that triggers every global override. -/
def sampleOpts : CallerOptions :=
  { Options :=
      { AccessToken := "tok"
        AccessTokenSecret := "sec"
        HttpClient := none
        UserAgent := "ua" }
    DefaultZone := "is1a"
    Zones := ["is1a", "is1b"]
    APIRootURL := "https://example.test/api/" }

/-! ## Helper lemmas -/

/-- The list of API calls `Present` issues, independent of the API's answers. -/
theorem Present_trace (api : APIOracle) (d : DNSProvider) (domain token keyAuth : String) :
    (Present api d domain token keyAuth).2 =
      [APICall.addTXT (dns01.GetChallengeInfo domain keyAuth).EffectiveFQDN
        (dns01.GetChallengeInfo domain keyAuth).Value d.config.TTL] := by
  cases h : api (APICall.addTXT (dns01.GetChallengeInfo domain keyAuth).EffectiveFQDN
    (dns01.GetChallengeInfo domain keyAuth).Value d.config.TTL) <;>
    simp [Present, addTXTRecord, h]

/-- The list of API calls `CleanUp` issues, independent of the API's answers. -/
theorem CleanUp_trace (api : APIOracle) (d : DNSProvider) (domain token keyAuth : String) :
    (CleanUp api d domain token keyAuth).2 =
      [APICall.cleanupTXT (dns01.GetChallengeInfo domain keyAuth).EffectiveFQDN
        (dns01.GetChallengeInfo domain keyAuth).Value] := by
  cases h : api (APICall.cleanupTXT (dns01.GetChallengeInfo domain keyAuth).EffectiveFQDN
    (dns01.GetChallengeInfo domain keyAuth).Value) <;>
    simp [CleanUp, cleanupTXTRecord, h]

/-- The error `Present` returns is the underlying call's error, prefixed. -/
theorem Present_fst (api : APIOracle) (d : DNSProvider) (domain token keyAuth : String) :
    (Present api d domain token keyAuth).1 =
      Option.map (fun err => "sakuracloud: " ++ err)
        (addTXTRecord api (dns01.GetChallengeInfo domain keyAuth).EffectiveFQDN
          (dns01.GetChallengeInfo domain keyAuth).Value d.config.TTL).1 := by
  cases h : api (APICall.addTXT (dns01.GetChallengeInfo domain keyAuth).EffectiveFQDN
    (dns01.GetChallengeInfo domain keyAuth).Value d.config.TTL) <;>
    simp [Present, addTXTRecord, h]

/-- The error `CleanUp` returns is the underlying call's error, prefixed. -/
theorem CleanUp_fst (api : APIOracle) (d : DNSProvider) (domain token keyAuth : String) :
    (CleanUp api d domain token keyAuth).1 =
      Option.map (fun err => "sakuracloud: " ++ err)
        (cleanupTXTRecord api (dns01.GetChallengeInfo domain keyAuth).EffectiveFQDN
          (dns01.GetChallengeInfo domain keyAuth).Value).1 := by
  cases h : api (APICall.cleanupTXT (dns01.GetChallengeInfo domain keyAuth).EffectiveFQDN
    (dns01.GetChallengeInfo domain keyAuth).Value) <;>
    simp [CleanUp, cleanupTXTRecord, h]

/-- Trimming trailing slashes from a string with no trailing slash is the identity. -/
theorem TrimRightSlashes_of_no_suffix (s : String)
    (h : strings.HasSuffixSlash s = false) : strings.TrimRightSlashes s = s := by
  unfold strings.TrimRightSlashes
  unfold strings.HasSuffixSlash at h
  cases hrev : s.toList.reverse with
  | nil =>
    have hnil : s.toList = [] := List.reverse_eq_nil_iff.mp hrev
    simp only [List.dropWhile_nil, List.reverse_nil]
    cases s with
    | mk data =>
      have hd : data = [] := hnil
      rw [hd]
  | cons c cs =>
    rw [hrev] at h
    have h' : decide (c = '/') = false := h
    simp only [List.dropWhile, h']
    have hl : (c :: cs).reverse = s.toList := by
      rw [← hrev, List.reverse_reverse]
    rw [hl]
    cases s with
    | mk data => rfl

/-- `newCaller` always sets the state-polling timeout global to 72 hours. -/
theorem newCaller_polling_timeout (opts : CallerOptions) (g : Globals) :
    (newCaller opts g).2.DefaultStatePollingTimeout = 72 * time.Hour := by
  unfold newCaller
  by_cases hua : opts.Options.UserAgent = "" <;>
  by_cases hdz : opts.DefaultZone = "" <;>
  by_cases hz : opts.Zones.length > 0 <;>
  by_cases har : opts.APIRootURL = "" <;>
    simp_all

/-! ## Claim theorems -/

/-- C1: `Present` and `CleanUp` both resolve the record to act on through
`dns01.GetChallengeInfo domain keyAuth`, passing its `EffectiveFQDN` as the
record name and its `Value` as the record value to the create call
(`addTXTRecord`) and the delete call (`cleanupTXTRecord`) respectively, so
`CleanUp` targets exactly the FQDN/value pair `Present` created. -/
theorem present_cleanup_target_same_record (api : APIOracle) (d : DNSProvider)
    (domain tokenP tokenC keyAuth : String) :
    (Present api d domain tokenP keyAuth).2 =
      [APICall.addTXT (dns01.GetChallengeInfo domain keyAuth).EffectiveFQDN
        (dns01.GetChallengeInfo domain keyAuth).Value d.config.TTL] ∧
    (CleanUp api d domain tokenC keyAuth).2 =
      [APICall.cleanupTXT (dns01.GetChallengeInfo domain keyAuth).EffectiveFQDN
        (dns01.GetChallengeInfo domain keyAuth).Value] :=
  ⟨Present_trace api d domain tokenP keyAuth, CleanUp_trace api d domain tokenC keyAuth⟩

/-- C2: `NewDNSProviderConfig` validates credentials: a nil config, an empty
`Token` and an empty `Secret` each produce the corresponding error and no
provider; otherwise, when `api.DefaultOption` succeeds, it returns a provider
whose `config` field is exactly the config passed in, together with no error. -/
theorem newDNSProviderConfig_validates (defaultOption : Except String CallerOptions)
    (mergeOptions : CallerOptions → CallerOptions → CallerOptions)
    (config : Option Config) (g : Globals) :
    (NewDNSProviderConfig defaultOption mergeOptions config g).1.map (fun p => p.config) =
      (match config with
       | none => Except.error "sakuracloud: the configuration of the DNS provider is nil"
       | some cfg =>
         if cfg.Token = "" then Except.error "sakuracloud: AccessToken is missing"
         else if cfg.Secret = "" then Except.error "sakuracloud: AccessSecret is missing"
         else
           match defaultOption with
           | Except.error err => Except.error ("sakuracloud: " ++ err)
           | Except.ok _ => Except.ok cfg) := by
  cases config with
  | none => rfl
  | some cfg =>
    by_cases h1 : cfg.Token = ""
    · simp [NewDNSProviderConfig, h1, Except.map]
    · by_cases h2 : cfg.Secret = ""
      · simp [NewDNSProviderConfig, h1, h2, Except.map]
      · cases defaultOption with
        | error err => simp [NewDNSProviderConfig, h1, h2, Except.map]
        | ok defOpt => simp [NewDNSProviderConfig, h1, h2, Except.map]

/-- C3: errors from the external API are propagated, not swallowed: `Present`
returns `none` exactly when `addTXTRecord` does, and an `addTXTRecord` error is
returned wrapped with the "sakuracloud: " message; likewise for `CleanUp` with
respect to `cleanupTXTRecord`. -/
theorem present_cleanup_propagate_errors (api : APIOracle) (d : DNSProvider)
    (domain token keyAuth : String) :
    (Present api d domain token keyAuth).1 =
      Option.map (fun err => "sakuracloud: " ++ err)
        (addTXTRecord api (dns01.GetChallengeInfo domain keyAuth).EffectiveFQDN
          (dns01.GetChallengeInfo domain keyAuth).Value d.config.TTL).1 ∧
    (CleanUp api d domain token keyAuth).1 =
      Option.map (fun err => "sakuracloud: " ++ err)
        (cleanupTXTRecord api (dns01.GetChallengeInfo domain keyAuth).EffectiveFQDN
          (dns01.GetChallengeInfo domain keyAuth).Value).1 :=
  ⟨Present_fst api d domain token keyAuth, CleanUp_fst api d domain token keyAuth⟩

/-- C4: `NewDNSProvider` is driven entirely by environment variables: it fails
when either credential variable is unset, and when both are present it
delegates to `NewDNSProviderConfig` with `Token` and `Secret` taken from the
two variables and every other field from `NewDefaultConfig`. -/
theorem newDNSProvider_env_driven (defaultOption : Except String CallerOptions)
    (mergeOptions : CallerOptions → CallerOptions → CallerOptions)
    (e : Env) (g : Globals) :
    NewDNSProvider defaultOption mergeOptions e g =
      (match e EnvAccessToken, e EnvAccessTokenSecret with
       | some tok, some sec =>
         NewDNSProviderConfig defaultOption mergeOptions
           (some { NewDefaultConfig e with Token := tok, Secret := sec }) g
       | _, _ =>
         (Except.error ("sakuracloud: " ++ ("some credentials information are missing: " ++
           EnvAccessToken ++ "," ++ EnvAccessTokenSecret)), g)) := by
  unfold NewDNSProvider env.Get2
  cases e EnvAccessToken <;> cases e EnvAccessTokenSecret <;> rfl

/-- C5: `Timeout` returns exactly the pair
`(config.PropagationTimeout, config.PollingInterval)`, in that order; being a
pure function of the provider it modifies nothing. -/
theorem timeout_returns_config_pair (d : DNSProvider) :
    Timeout d = (d.config.PropagationTimeout, d.config.PollingInterval) := rfl

/-- C6: `NewDefaultConfig` populates the configuration from the environment
with fixed fallbacks (TTL from `SAKURACLOUD_TTL` else `dns01.DefaultTTL`, the
two durations from their variables else the `dns01` defaults, the HTTP
client's timeout from `SAKURACLOUD_HTTP_TIMEOUT` else 10 seconds) and leaves
`Token` and `Secret` empty; on an empty environment every fallback is taken. -/
theorem newDefaultConfig_fields_and_fallbacks (e : Env) :
    (NewDefaultConfig e).Token = "" ∧
    (NewDefaultConfig e).Secret = "" ∧
    (NewDefaultConfig e).TTL = env.GetOrDefaultInt e EnvTTL dns01.DefaultTTL ∧
    (NewDefaultConfig e).PropagationTimeout =
      env.GetOrDefaultSecond e EnvPropagationTimeout dns01.DefaultPropagationTimeout ∧
    (NewDefaultConfig e).PollingInterval =
      env.GetOrDefaultSecond e EnvPollingInterval dns01.DefaultPollingInterval ∧
    (NewDefaultConfig e).HTTPClient =
      some { Timeout := env.GetOrDefaultSecond e EnvHTTPTimeout (10 * time.Second) } ∧
    NewDefaultConfig (fun _ => none) =
      { Token := ""
        Secret := ""
        TTL := dns01.DefaultTTL
        PropagationTimeout := dns01.DefaultPropagationTimeout
        PollingInterval := dns01.DefaultPollingInterval
        HTTPClient := some { Timeout := 10 * time.Second } } :=
  ⟨rfl, rfl, rfl, rfl, rfl, rfl, rfl⟩

/-- C7: each of `Present` and `CleanUp` issues exactly one call to the external
DNS API per invocation — one create-TXT call and one delete-TXT call
respectively — and the calls issued do not depend on the API's answers (no
retry on failure, no other API interaction). -/
theorem present_cleanup_single_call (api api' : APIOracle) (d : DNSProvider)
    (domain token keyAuth : String) :
    ((Present api d domain token keyAuth).2.length = 1 ∧
     (Present api d domain token keyAuth).2.all APICall.isAddTXT = true ∧
     (Present api d domain token keyAuth).2 = (Present api' d domain token keyAuth).2) ∧
    ((CleanUp api d domain token keyAuth).2.length = 1 ∧
     (CleanUp api d domain token keyAuth).2.all APICall.isCleanupTXT = true ∧
     (CleanUp api d domain token keyAuth).2 = (CleanUp api' d domain token keyAuth).2) := by
  simp [Present_trace, CleanUp_trace, APICall.isAddTXT, APICall.isCleanupTXT]

/-- C8: `newCaller` applies its overrides conditionally: the default zone and
zone-list globals are overwritten only when the corresponding option is
non-empty, an empty user agent is replaced by `iaas.DefaultUserAgent`, and a
non-empty `APIRootURL` is assigned to the API-root global with every trailing
"/" stripped. -/
theorem newCaller_conditional_overrides (opts : CallerOptions) (g : Globals) :
    (newCaller opts g).2.APIDefaultZone =
      (if opts.DefaultZone = "" then g.APIDefaultZone else opts.DefaultZone) ∧
    (newCaller opts g).2.SakuraCloudZones =
      (if opts.Zones.length > 0 then opts.Zones else g.SakuraCloudZones) ∧
    (newCaller opts g).1.Options.UserAgent =
      (if opts.Options.UserAgent = "" then iaas.DefaultUserAgent else opts.Options.UserAgent) ∧
    (newCaller opts g).2.SakuraCloudAPIRoot =
      (if opts.APIRootURL = "" then g.SakuraCloudAPIRoot
       else strings.TrimRightSlashes opts.APIRootURL) := by
  unfold newCaller
  by_cases hua : opts.Options.UserAgent = "" <;>
  by_cases hdz : opts.DefaultZone = "" <;>
  by_cases hz : opts.Zones.length > 0 <;>
  by_cases har : opts.APIRootURL = "" <;>
  by_cases hs : strings.HasSuffixSlash opts.APIRootURL = true <;>
    simp_all [TrimRightSlashes_of_no_suffix]

/-- C9: the `token` parameter is ignored: for any two token values, `Present`
performs the same API call and returns the same result, and likewise for
`CleanUp` — only `domain` and `keyAuth` influence record name, record value
and outcome. -/
theorem present_cleanup_ignore_token (api : APIOracle) (d : DNSProvider)
    (domain t1 t2 keyAuth : String) :
    Present api d domain t1 keyAuth = Present api d domain t2 keyAuth ∧
    CleanUp api d domain t1 keyAuth = CleanUp api d domain t2 keyAuth :=
  ⟨rfl, rfl⟩

/-- C10: constructing a provider mutates process-global state: every
`NewDNSProviderConfig` call that reaches caller construction sets the global
`defaults.DefaultStatePollingTimeout` to 72 hours regardless of the merged
options, and `newCaller` does overwrite `iaas.APIDefaultZone`,
`iaas.SakuraCloudZones` and `iaas.SakuraCloudAPIRoot` on the sample options
that set them. -/
theorem newDNSProviderConfig_mutates_globals (defaultOption : Except String CallerOptions)
    (mergeOptions : CallerOptions → CallerOptions → CallerOptions)
    (cfg : Config) (g : Globals) (defOpt : CallerOptions)
    (htok : cfg.Token ≠ "") (hsec : cfg.Secret ≠ "")
    (hdo : defaultOption = Except.ok defOpt) :
    (NewDNSProviderConfig defaultOption mergeOptions (some cfg) g).2.DefaultStatePollingTimeout =
      72 * time.Hour ∧
    ((newCaller sampleOpts sampleGlobals).2.APIDefaultZone ≠ sampleGlobals.APIDefaultZone ∧
     (newCaller sampleOpts sampleGlobals).2.SakuraCloudZones ≠ sampleGlobals.SakuraCloudZones ∧
     (newCaller sampleOpts sampleGlobals).2.SakuraCloudAPIRoot ≠
       sampleGlobals.SakuraCloudAPIRoot) := by
  subst hdo
  refine ⟨?_, ?_, ?_, ?_⟩
  · simp [NewDNSProviderConfig, htok, hsec, newCallerWithOptions, newCaller_polling_timeout]
  · decide
  · decide
  · decide

/-- Witness for C10: the hypotheses hold and the conclusion follows at the
sample configuration, options and globals. -/
theorem newDNSProviderConfig_mutates_globals_witness :
    sampleConfig.Token ≠ "" ∧ sampleConfig.Secret ≠ "" ∧
    ((NewDNSProviderConfig (Except.ok sampleOpts) mergeOverride (some sampleConfig)
        sampleGlobals).2.DefaultStatePollingTimeout = 72 * time.Hour ∧
     ((newCaller sampleOpts sampleGlobals).2.APIDefaultZone ≠ sampleGlobals.APIDefaultZone ∧
      (newCaller sampleOpts sampleGlobals).2.SakuraCloudZones ≠ sampleGlobals.SakuraCloudZones ∧
      (newCaller sampleOpts sampleGlobals).2.SakuraCloudAPIRoot ≠
        sampleGlobals.SakuraCloudAPIRoot)) :=
  ⟨by decide, by decide,
    newDNSProviderConfig_mutates_globals (Except.ok sampleOpts) mergeOverride sampleConfig
      sampleGlobals sampleOpts (by decide) (by decide) rfl⟩

end LegoACME
